import Mathlib

/-!
Verification of the image-input resolution pipeline of mcp-openvision
(`src/mcp_openvision/server.py`), shallowly embedded in Lean.

Bytes are modelled as `List Nat`, strings as Lean `String` (whose `data`
field is a `List Char`).  Filesystem and network effects are modelled by
explicit environments (`FS`, `Http`) passed to the embedded functions.
Python exceptions become explicit error values.
-/

namespace OpenVision

/-! ## Byte and string utilities -/

/-- Model of Python `str.startswith`: prefix test on the character lists. -/
def strStartsWith (s p : String) : Bool :=
  p.data.isPrefixOf s.data

/-- Model of `base64.b64encode`: the standard base64 alphabet. -/
def b64_alphabet : List Char :=
  "ABCDEFGHIJKLMNOPQRSTUVWXYZabcdefghijklmnopqrstuvwxyz0123456789+/".data

/-- Character of the base64 alphabet at index `n` (indices used are < 64). -/
def b64_char (n : Nat) : Char := b64_alphabet.getD n 'A'

/-- Base64-encode a byte list, three bytes to four output characters, with
`=` padding, following `base64.b64encode`. -/
def encode_chunks : List Nat → List Char
  | b1 :: b2 :: b3 :: rest =>
      b64_char (b1 / 4) :: b64_char (b1 % 4 * 16 + b2 / 16) ::
      b64_char (b2 % 16 * 4 + b3 / 64) :: b64_char (b3 % 64) :: encode_chunks rest
  | [b1, b2] => [b64_char (b1 / 4), b64_char (b1 % 4 * 16 + b2 / 16), b64_char (b2 % 16 * 4), '=']
  | [b1] => [b64_char (b1 / 4), b64_char (b1 % 4 * 16), '=', '=']
  | [] => []

/-- `encode_image_to_base64` (server.py line 35): base64-encode raw image bytes. -/
def encode_image_to_base64 (image_data : List Nat) : String :=
  String.mk (encode_chunks image_data)

/-- The needle occurs as a contiguous substring of the haystack. -/
def containsStr (needle hay : String) : Prop :=
  ∃ pre suf, hay.data = pre ++ needle.data ++ suf

/-! ## `re.search("base64,(.*)", s)` model

A Python regex `.` does not match a newline, so group 1 of
`base64,(.*)` is the run of non-newline characters directly after the
first occurrence of `base64,`. -/

/-- The characters of the `base64,` marker. -/
def marker_chars : List Char := "base64,".data

/-- Drop everything up to and including the first occurrence of `pat`;
`none` when `pat` does not occur. -/
def dropAfterFirst (pat : List Char) : List Char → Option (List Char)
  | [] => if pat.isEmpty then some [] else none
  | c :: rest =>
      if pat.isPrefixOf (c :: rest) then some ((c :: rest).drop pat.length)
      else dropAfterFirst pat rest

/-- Group 1 of `re.search("base64,(.*)", image)` guarded by the
`image.startswith("data:image")` test of server.py lines 268-273:
the payload the data-URL branch of `process_image_input` returns. -/
def data_url_payload (image : String) : Option String :=
  if strStartsWith image "data:image" then
    (dropAfterFirst marker_chars image.data).map
      (fun r => String.mk (r.takeWhile (fun c => c != '\n')))
  else none

/-! ## `is_base64` (server.py lines 90-129) -/

/-- Characters of the base64 alphabet proper (`[A-Za-z0-9+/]`). -/
def isB64Char (c : Char) : Bool :=
  c.isAlpha || c.isDigit || c == '+' || c == '/'

/-- The `[A-Za-z0-9+/]*={0,2}` part of the validity regex, consuming the
whole input: a run of alphabet characters followed by at most two
trailing `=` characters. -/
def bodyPads : List Char → Bool
  | [] => true
  | c :: rest =>
      if isB64Char c then bodyPads rest
      else c == '=' && (rest.isEmpty || rest == ['='])

/-- Remove a single trailing newline when present: without `re.MULTILINE`,
Python's `$` matches at the end of the string or just before one final
newline. -/
def strip_trailing_newline (s : List Char) : List Char :=
  if s.getLast? = some '\n' then s.dropLast else s

/-- Match of `re.match("^[A-Za-z0-9+/]*={0,2}$", s)`: the body-and-padding
pattern must consume everything up to the position where `$` matches —
the end of the string, or just before one trailing newline. -/
def matchesB64Regex (s : List Char) : Bool :=
  bodyPads (strip_trailing_newline s)

/-- The quad/pad state machine of CPython `binascii.a2b_base64` in
non-strict mode (which is what `base64.b64decode` runs without
`validate`), tracking success only: a `=` increments the pad count and
ends decoding successfully once the current quad holds at least two data
characters and data plus pads reach four; an alphabet character advances
the quad position and resets the pad count; any other character is
discarded; when the input ends, the decode succeeds exactly when no
partial quad remains. -/
def a2b_loop : List Char → Nat → Nat → Bool
  | [], quadPos, _ => quadPos == 0
  | c :: rest, quadPos, pads =>
      if c == '=' then
        if 2 ≤ quadPos && 4 ≤ quadPos + (pads + 1) then true
        else a2b_loop rest quadPos (pads + 1)
      else if isB64Char c then a2b_loop rest ((quadPos + 1) % 4) 0
      else a2b_loop rest quadPos pads

/-- Success of `base64.b64decode` on the given characters. -/
def b64_decode_ok (s : List Char) : Bool :=
  a2b_loop s 0 0

/-- The string `is_base64` actually tests: the original string, or — when it
starts with `data:image` — group 1 of `base64,(.*)` when that matches
(server.py lines 100-106). -/
def b64_candidate (s : String) : List Char :=
  match data_url_payload s with
  | some p => p.data
  | none => s.data

/-- `is_base64` (server.py lines 90-129).  After the optional data-URL strip,
the code requires the regex match, length at least 4, and a successful
`base64.b64decode`. -/
def is_base64 (s : String) : Bool :=
  matchesB64Regex (b64_candidate s) &&
  decide (4 ≤ (b64_candidate s).length) &&
  b64_decode_ok (b64_candidate s)

/-! ## `is_url` (server.py lines 73-87), via `urllib.parse.urlparse`

`urlparse` finds the first `:`; the text before it is a scheme when it is
non-empty, begins with an ASCII letter and uses only letters, digits and
`+`, `-`, `.`.  A netloc is present only when the remainder begins with
`//`; it extends to the next `/`, `?` or `#`.  `is_url` requires both a
non-empty scheme and a non-empty netloc. -/

/-- Split a character list at its first `:`. -/
def splitOnColon : List Char → Option (List Char × List Char)
  | [] => none
  | c :: rest =>
      if c == ':' then some ([], rest)
      else (splitOnColon rest).map (fun pr => (c :: pr.1, pr.2))

/-- Characters allowed in a URI scheme after the first. -/
def schemeChar (c : Char) : Bool :=
  c.isAlpha || c.isDigit || c == '+' || c == '-' || c == '.'

/-- A valid scheme: non-empty, ASCII-letter first, scheme characters after. -/
def validScheme : List Char → Bool
  | [] => false
  | c :: rest => c.isAlpha && rest.all schemeChar

/-- Characters that terminate a netloc. -/
def netlocChar (c : Char) : Bool :=
  !(c == '/' || c == '?' || c == '#')

/-- The netloc of the text after the scheme colon: requires a leading `//`. -/
def netlocOf : List Char → List Char
  | [] => []
  | c1 :: rest1 =>
      if c1 == '/' then
        match rest1 with
        | [] => []
        | c2 :: rest2 => if c2 == '/' then rest2.takeWhile netlocChar else []
      else []

/-- `is_url` (server.py lines 73-87): the string parses with a non-empty
scheme and a non-empty netloc. -/
def is_url (s : String) : Bool :=
  match splitOnColon s.data with
  | none => false
  | some (pre, post) => validScheme pre && !(netlocOf post).isEmpty

/-! ## `extract_mime_type_from_data_url` (server.py lines 132-146) -/

/-- Group 1 of `re.search("data:(image/[^;]+)", s)`: at the first position
where `data:image/` is followed by at least one non-`;` character, the
group is `image/` plus the maximal run of non-`;` characters. -/
def findDataImageMime : List Char → Option (List Char)
  | [] => none
  | c :: rest =>
      if "data:image/".data.isPrefixOf (c :: rest) then
        match ((c :: rest).drop 11).takeWhile (fun x => x != ';') with
        | [] => findDataImageMime rest
        | run => some ("image/".data ++ run)
      else findDataImageMime rest

/-- `extract_mime_type_from_data_url` (server.py lines 132-146): regex
extraction with an `image/jpeg` default. -/
def extract_mime_type_from_data_url (data_url : String) : String :=
  match findDataImageMime data_url.data with
  | some m => String.mk m
  | none => "image/jpeg"

/-! ## `get_mime_type` (server.py lines 40-70)

`mimetypes.guess_type` is Python standard library; it is modelled by
extension lookup on the final path segment (the extension is the text
after the last `.` of the basename, provided some non-dot character
precedes that dot), lowercased, against the standard mime table entries
relevant here. -/

/-- The final path segment: the characters after the last `/`. -/
def lastSegment (l : List Char) : List Char :=
  (l.reverse.takeWhile (fun c => c != '/')).reverse

/-- Extension of a basename, `os.path.splitext` style: text after the last
`.`, provided a non-dot character occurs before that dot. -/
def splitextExt (base : List Char) : Option (List Char) :=
  let rev := base.reverse
  let afterDot := rev.takeWhile (fun c => c != '.')
  if afterDot.length == rev.length then none
  else if (rev.drop (afterDot.length + 1)).all (fun c => c == '.') then none
  else some afterDot.reverse

/-- Extension-to-MIME table (the standard `mimetypes` entries used here). -/
def ext_mime_table : List (String × String) :=
  [("jpg", "image/jpeg"), ("jpeg", "image/jpeg"), ("jpe", "image/jpeg"),
   ("png", "image/png"), ("gif", "image/gif"), ("webp", "image/webp"),
   ("bmp", "image/bmp"), ("tif", "image/tiff"), ("tiff", "image/tiff"),
   ("svg", "image/svg+xml"), ("ico", "image/vnd.microsoft.icon"),
   ("txt", "text/plain"), ("html", "text/html"), ("htm", "text/html"),
   ("json", "application/json"), ("pdf", "application/pdf")]

/-- Model of `mimetypes.guess_type`: extension-based lookup. -/
def guess_type (p : String) : Option String :=
  match splitextExt (lastSegment p.data) with
  | some e =>
      ((ext_mime_table.find? (fun kv => kv.1 == String.mk (e.map Char.toLower))).map
        (fun kv => kv.2))
  | none => none

/-- The extension guess, kept only when it is an `image/` type
(server.py lines 52-55). -/
def guess_image (p : String) : Option String :=
  match guess_type p with
  | some m => if strStartsWith m "image/" then some m else none
  | none => none

/-- PNG signature `89 50 4E 47 0D 0A 1A 0A`. -/
def png_signature : List Nat := [137, 80, 78, 71, 13, 10, 26, 10]

/-- JPEG signature `FF D8 FF`. -/
def jpeg_signature : List Nat := [255, 216, 255]

/-- Bytes of `RIFF`. -/
def riff_tag : List Nat := [82, 73, 70, 70]

/-- Bytes of `WEBP`. -/
def webp_tag : List Nat := [87, 69, 66, 80]

/-- Boolean contiguous-sublist test on byte lists (`b"WEBP" in data[0:12]`). -/
def bytesInfix (pat : List Nat) : List Nat → Bool
  | [] => pat.isEmpty
  | c :: rest => pat.isPrefixOf (c :: rest) || bytesInfix pat rest

/-- Byte-signature sniffing of server.py lines 57-70, including the `if
image_data:` truthiness test (empty bytes are falsy) and the final
`image/jpeg` default. -/
def sniff_bytes : Option (List Nat) → String
  | some bytes =>
      if bytes.isEmpty then "image/jpeg"
      else if png_signature.isPrefixOf bytes then "image/png"
      else if jpeg_signature.isPrefixOf bytes then "image/jpeg"
      else if riff_tag.isPrefixOf bytes && bytesInfix webp_tag (bytes.take 12) then "image/webp"
      else "image/jpeg"
  | none => "image/jpeg"

/-- `get_mime_type` (server.py lines 40-70): extension guess first, accepted
only when it is an `image/` type; then byte signatures; then `image/jpeg`. -/
def get_mime_type (file_path : String) (image_data : Option (List Nat)) : String :=
  match guess_type file_path with
  | some m => if strStartsWith m "image/" then m else sniff_bytes image_data
  | none => sniff_bytes image_data

/-! ## Filesystem and HTTP environments -/

/-- A filesystem environment: existence, directory test, readability and
content per path string.  `open(p, "rb")` on an existing path fails with
`IsADirectoryError` on a directory and `PermissionError` on an unreadable
file, and otherwise yields the content. -/
structure FS where
  pathExists : String → Bool
  isDir : String → Bool
  readable : String → Bool
  content : String → List Nat

/-- An HTTP response: status code, optional `Content-Type` header, body. -/
structure HttpResponse where
  status : Nat
  contentType : Option String
  body : List Nat

/-- A network environment: `requests.get` either raises a transport-level
`RequestException` (carrying a message) or returns a response. -/
structure Http where
  get : String → Except String HttpResponse

/-- Errors of `load_image_from_path`, mirroring the Python exception classes
it raises: `FileNotFoundError`, `PermissionError`, and plain `Exception`
for other read failures. -/
inductive PathError where
  | fileNotFound (msg : String)
  | permissionError (msg : String)
  | otherError (msg : String)
deriving DecidableEq

/-- Errors escaping `process_image_input`: `ValueError` (raised by its own
wrapping) or a plain `Exception` propagated from the URL loader. -/
inductive ProcError where
  | valueError (msg : String)
  | exception (msg : String)
deriving DecidableEq

/-- The message text of a Python exception (`str(e)`). -/
def procErrorMsg : ProcError → String
  | .valueError m => m
  | .exception m => m

/-! ## `load_image_from_url` (server.py lines 149-177) -/

/-- Model of the message of the `requests.HTTPError` raised by
`raise_for_status` on a 4XX/5XX response: it carries the status code and
the URL. -/
def http_error_msg (status : Nat) (url : String) : String :=
  toString status ++ " Error for url: " ++ url

/-- `load_image_from_url` (server.py lines 149-177): `raise_for_status`
turns 4XX/5XX into a wrapped `RequestException`; the explicit check turns
any other non-200 status into an `Exception`; a transport error is
wrapped; on status 200 the body is base64-encoded and returned. -/
def load_image_from_url (http : Http) (url : String) : Except String String :=
  match http.get url with
  | .error e => .error ("Failed to download image from URL: " ++ url ++ ", error: " ++ e)
  | .ok r =>
      if 400 ≤ r.status then
        .error ("Failed to download image from URL: " ++ url ++ ", error: " ++
          http_error_msg r.status url)
      else if r.status != 200 then
        .error ("Failed to download image from URL: " ++ url ++ ", error: HTTP " ++
          toString r.status)
      else .ok (encode_image_to_base64 r.body)

/-- The `content_type` local computed on the success path of
`load_image_from_url` (server.py lines 170-173) — taken from the
`Content-Type` header if that is truthy and starts with `image/`, else
from byte sniffing — and then never returned by the function. -/
def load_image_from_url_content_type (http : Http) (url : String) : Option String :=
  match http.get url with
  | .error _ => none
  | .ok r =>
      if 400 ≤ r.status then none
      else if r.status != 200 then none
      else some (match r.contentType with
        | some ct => if strStartsWith ct "image/" then ct else get_mime_type url (some r.body)
        | none => get_mime_type url (some r.body))

/-! ## `load_image_from_path` (server.py lines 180-248) -/

/-- Model of `pathlib.Path` construction on the inputs that matter here:
the empty string normalizes to `.`; other inputs are kept as written. -/
def pathOfString (s : String) : String :=
  if s == "" then "." else s

/-- POSIX absoluteness: the path starts with `/`. -/
def isAbsolute (p : String) : Bool :=
  strStartsWith p "/"

/-- `Path(root) / path` for a relative `path`: drop trailing slashes of the
root and join with `/`; joining with the empty string returns the root. -/
def joinPath (root rel : String) : String :=
  let r := String.mk (root.data.reverse.dropWhile (fun c => c == '/') |>.reverse)
  if rel == "" then r else r ++ "/" ++ rel

/-- Python truthiness of the optional `project_root` argument: `None` and
the empty string are falsy. -/
def truthyRoot : Option String → Bool
  | none => false
  | some r => r != ""

/-- Message of the Python `IsADirectoryError` raised by `open` on a
directory. -/
def isadir_msg (p : String) : String :=
  "[Errno 21] Is a directory: \x27" ++ p ++ "\x27"

/-- The `FileNotFoundError` message after all candidates are exhausted
(server.py lines 240-248), which distinguishes whether a project root was
supplied. -/
def notfound_msg (path : String) (projectRoot : Option String) : String :=
  if truthyRoot projectRoot then
    "Image file not found: " ++ path ++ " (tried directly and under project root: " ++
      projectRoot.getD "" ++ ")"
  else
    "Image file not found: " ++ path ++ " (relative path used without specifying project_root)"

/-- The candidate loop of server.py lines 226-248: an existing candidate
that is a directory raises; a permission error advances to the next
candidate; an existing readable file wins; exhaustion raises
`FileNotFoundError`. -/
def try_paths (fs : FS) (cands : List String) (path : String) (projectRoot : Option String) :
    Except PathError String :=
  match cands with
  | [] => .error (.fileNotFound (notfound_msg path projectRoot))
  | p :: rest =>
      if fs.pathExists p then
        if fs.isDir p then
          .error (.otherError ("Error reading image file at: " ++ p ++ ", error: " ++ isadir_msg p))
        else if fs.readable p then .ok (encode_image_to_base64 (fs.content p))
        else try_paths fs rest path projectRoot
      else try_paths fs rest path projectRoot

/-- The ordered candidate list (server.py lines 200-224): an absolute path
is probed alone; a relative path is probed as given, then joined under the
project root when that is supplied (truthy) and is an existing directory. -/
def path_candidates (fs : FS) (path : String) (projectRoot : Option String) : List String :=
  let fp := pathOfString path
  if isAbsolute fp then [fp]
  else
    fp :: (match projectRoot with
      | some r =>
          if (r != "") && fs.pathExists r && fs.isDir r then [joinPath r path] else []
      | none => [])

/-- `load_image_from_path` (server.py lines 180-248).  The absolute branch
checks existence, then reads, re-raising a `PermissionError` with its own
message and wrapping other read failures; the relative branch runs the
candidate loop. -/
def load_image_from_path (fs : FS) (path : String) (projectRoot : Option String) :
    Except PathError String :=
  let fp := pathOfString path
  if isAbsolute fp then
    if !fs.pathExists fp then
      .error (.fileNotFound ("Image file not found at absolute path: " ++ path))
    else if fs.isDir fp then
      .error (.otherError ("Error reading image file at: " ++ path ++ ", error: " ++ isadir_msg fp))
    else if !fs.readable fp then
      .error (.permissionError ("Permission denied when trying to read image file at: " ++ path))
    else .ok (encode_image_to_base64 (fs.content fp))
  else try_paths fs (path_candidates fs path projectRoot) path projectRoot

/-! ## `process_image_input` (server.py lines 251-293) -/

/-- The `ValueError` wrap of a `FileNotFoundError` or `PermissionError`
from the path loader (server.py lines 287-291). -/
def invalid_input_msg (m : String) : String :=
  "Invalid image input: " ++ m ++ ". Image must be a base64-encoded string, a URL, or a valid file path."

/-- The `try`/`except` wrap around the path-loader call (server.py lines
285-293): `FileNotFoundError` and `PermissionError` become the
Invalid-image-input `ValueError`, any other exception the
Error-processing-image `ValueError`. -/
def wrap_path_result : Except PathError String → Except ProcError String
  | .ok s => .ok s
  | .error (.fileNotFound m) => .error (.valueError (invalid_input_msg m))
  | .error (.permissionError m) => .error (.valueError (invalid_input_msg m))
  | .error (.otherError m) => .error (.valueError ("Error processing image: " ++ m))

/-- `process_image_input` (server.py lines 251-293): data-URL extraction
(falling through when the `base64,` marker is absent), then bare base64
passthrough, then the URL loader (whose exceptions propagate unwrapped),
then the path loader with its errors wrapped into `ValueError`s. -/
def process_image_input (fs : FS) (http : Http) (image : String) (projectRoot : Option String) :
    Except ProcError String :=
  match data_url_payload image with
  | some payload => .ok payload
  | none =>
      if is_base64 image then .ok image
      else if is_url image then
        match load_image_from_url http image with
        | .ok s => .ok s
        | .error m => .error (.exception m)
      else wrap_path_result (load_image_from_path fs image projectRoot)

/-- The four source kinds of the input classifier. -/
inductive ImageSourceKind where
  | dataUrl
  | base64
  | remoteUrl
  | filesystemPath
deriving DecidableEq

/-- The classification realized by the branch order of
`process_image_input`: data URL (with marker), bare base64, remote URL,
filesystem path. -/
def classify (image : String) : ImageSourceKind :=
  match data_url_payload image with
  | some _ => .dataUrl
  | none =>
      if is_base64 image then .base64
      else if is_url image then .remoteUrl
      else .filesystemPath

/-! ## MIME derivation inside `image_analysis` (server.py lines 383-400) -/

/-- The MIME type `image_analysis` reports: data-URL extraction, else
extension guess of the URL, else `image/jpeg` for bare base64, else a
16-byte header sniff of the local file (falling back to an extension
guess of the input when the read fails). -/
def derive_mime_type (fs : FS) (image : String) (projectRoot : Option String) : String :=
  if strStartsWith image "data:image" then extract_mime_type_from_data_url image
  else if is_url image then get_mime_type image none
  else if is_base64 image then "image/jpeg"
  else
    let cand :=
      if !isAbsolute (pathOfString image) && truthyRoot projectRoot then
        joinPath (projectRoot.getD "") image
      else pathOfString image
    if fs.pathExists cand && !fs.isDir cand && fs.readable cand then
      get_mime_type cand (some ((fs.content cand).take 16))
    else get_mime_type image none

/-! ## Parameter validation of `image_analysis` (server.py lines 359-377)

The float parameters are modelled as rationals; only order comparisons
against the literals 0.0, 1.0 and 2.0 occur. -/

/-- The first validation error of `image_analysis` lines 359-377, if any. -/
def image_analysis_validate (maxTokens : Int) (temperature : ℚ)
    (topP presencePenalty frequencyPenalty : Option ℚ) : Option String :=
  if maxTokens < 100 ∨ maxTokens > 8000 then
    some "max_tokens must be between 100 and 4000"
  else if temperature < 0 ∨ temperature > 1 then
    some "temperature must be between 0.0 and 1.0"
  else if (match topP with | some t => decide (t < 0 ∨ t > 1) | none => false) then
    some "top_p must be between 0.0 and 1.0"
  else if (match presencePenalty with | some t => decide (t < 0 ∨ t > 2) | none => false) then
    some "presence_penalty must be between 0.0 and 2.0"
  else if (match frequencyPenalty with | some t => decide (t < 0 ∨ t > 2) | none => false) then
    some "frequency_penalty must be between 0.0 and 2.0"
  else none

/-- The corrective-guidance text appended when image processing fails
(server.py lines 404-413). -/
def guidance_text : String :=
  "Make sure your image is specified correctly:\n" ++
  "- For file paths, try providing the full absolute path\n" ++
  "- For relative paths, specify the project_root parameter\n" ++
  "- For URLs, ensure they are publicly accessible\n" ++
  "- For base64, ensure the encoding is correct\n\n" ++
  "Examples:\n" ++
  "image_analysis(image=\"/full/path/to/image.jpg\", query=\"Describe this image\")\n" ++
  "image_analysis(image=\"relative/path/image.jpg\", project_root=\"/root/dir\", query=\"What\x27s in this image?\")\n" ++
  "image_analysis(image=\"https://example.com/image.jpg\", query=\"Analyze this image\")"

/-- The `ValueError` message re-raised by `image_analysis` when processing
fails (server.py lines 402-414). -/
def process_failure_msg (m : String) : String :=
  "Failed to process image: " ++ m ++ "\n\n" ++ guidance_text

/-- The image-handling part of `image_analysis` (server.py lines 359-414):
parameter validation, then input processing and MIME derivation, with
processing failures wrapped into a guidance-bearing `ValueError`.  The
outbound request itself is outside the model. -/
def image_analysis_model (fs : FS) (http : Http) (image : String) (maxTokens : Int)
    (temperature : ℚ) (topP presencePenalty frequencyPenalty : Option ℚ)
    (projectRoot : Option String) : Except String (String × String) :=
  match image_analysis_validate maxTokens temperature topP presencePenalty frequencyPenalty with
  | some m => .error m
  | none =>
      match process_image_input fs http image projectRoot with
      | .ok payload => .ok (payload, derive_mime_type fs image projectRoot)
      | .error e => .error (process_failure_msg (procErrorMsg e))

/-! ## Concrete environments for evaluation -/

/-- A filesystem with no entries at all. -/
def fsEmpty : FS :=
  { pathExists := fun _ => false, isDir := fun _ => false,
    readable := fun _ => false, content := fun _ => [] }

/-- A filesystem whose only entry is the current directory `.`. -/
def fsDot : FS :=
  { pathExists := fun p => p == ".", isDir := fun p => p == ".",
    readable := fun _ => true, content := fun _ => [] }

/-- A filesystem with a single readable file `/a/b.jpg` whose content is a
PNG signature. -/
def fsPng : FS :=
  { pathExists := fun p => p == "/a/b.jpg", isDir := fun _ => false,
    readable := fun p => p == "/a/b.jpg", content := fun _ => png_signature }

/-- A filesystem for the permission scenario: `/r` is an existing directory
and `/r/img.jpg` exists but is not readable; the literal relative
candidate `img.jpg` does not exist. -/
def fsPerm : FS :=
  { pathExists := fun p => p == "/r" || p == "/r/img.jpg",
    isDir := fun p => p == "/r",
    readable := fun _ => false,
    content := fun _ => [] }

/-- A network that always fails at the transport level. -/
def httpDown : Http :=
  { get := fun _ => .error "connection error" }

/-- A network answering every GET with status 201 and a one-byte body. -/
def http201 : Http :=
  { get := fun _ => .ok { status := 201, contentType := none, body := [65] } }

/-- A network answering every GET with status 200, header
`Content-Type: image/png`, and a PNG-signature body. -/
def httpPng : Http :=
  { get := fun _ => .ok { status := 200, contentType := some "image/png", body := png_signature } }

/-! ## Helper lemmas -/

/-- A boolean prefix test yields a decomposition of the larger list. -/
theorem isPrefixOf_exists {α : Type} [BEq α] [LawfulBEq α] :
    ∀ (p l : List α), p.isPrefixOf l = true → ∃ t, l = p ++ t
  | [], l, _ => ⟨l, rfl⟩
  | _ :: _, [], h => by simp [List.isPrefixOf] at h
  | a :: as, b :: bs, h => by
      simp only [List.isPrefixOf, Bool.and_eq_true, beq_iff_eq] at h
      obtain ⟨t, ht⟩ := isPrefixOf_exists as bs h.2
      exact ⟨t, by simp [h.1, ht]⟩

/-- Every character of a string consumed by the body-and-padding pattern
is an alphabet character or `=`. -/
theorem bodyPads_chars :
    ∀ l : List Char, bodyPads l = true → ∀ c ∈ l, isB64Char c = true ∨ c = '='
  | [], _, c, hc => by simp at hc
  | a :: rest, h, c, hc => by
      by_cases hb : isB64Char a = true
      · have hrest : bodyPads rest = true := by
          simpa [bodyPads, hb] using h
        rcases List.mem_cons.mp hc with rfl | hmem
        · exact Or.inl hb
        · exact bodyPads_chars rest hrest c hmem
      · have h' : a = '=' ∧ (rest.isEmpty || rest == ['=']) = true := by
          simpa [bodyPads, hb, Bool.and_eq_true] using h
        rcases List.mem_cons.mp hc with rfl | hmem
        · exact Or.inr h'.1
        · rcases Bool.or_eq_true _ _ |>.mp h'.2 with he | he
          · simp [List.isEmpty_iff.mp he] at hmem
          · rw [show rest = ['='] from by simpa using he] at hmem
            simp at hmem
            exact Or.inr hmem

/-- A list whose last element is `c` is its `dropLast` followed by `c`. -/
theorem dropLast_append_last :
    ∀ (l : List Char) (c : Char), l.getLast? = some c → l.dropLast ++ [c] = l
  | [], c, h => by simp at h
  | [a], c, h => by
      simp only [List.getLast?_singleton, Option.some.injEq] at h
      simp [h]
  | a :: b :: t, c, h => by
      have hr := dropLast_append_last (b :: t) c (by simpa using h)
      simpa [List.dropLast] using hr

/-- Stripping the optional trailing newline either leaves the list alone or
removes exactly one final newline. -/
theorem strip_eq_or (s : List Char) :
    strip_trailing_newline s = s ∨ s = strip_trailing_newline s ++ ['\n'] := by
  by_cases h : s.getLast? = some '\n'
  · refine Or.inr ?_
    have hst : strip_trailing_newline s = s.dropLast := by
      simp [strip_trailing_newline, h]
    rw [hst]
    exact (dropLast_append_last s '\n' h).symm
  · exact Or.inl (by simp [strip_trailing_newline, h])

/-- Every character of a string matching the full base64 validity regex is
an alphabet character, `=`, or the trailing newline tolerated by `$`. -/
theorem matchesB64Regex_chars (l : List Char) (h : matchesB64Regex l = true) :
    ∀ c ∈ l, isB64Char c = true ∨ c = '=' ∨ c = '\n' := by
  have hb : bodyPads (strip_trailing_newline l) = true := h
  intro c hc
  rcases strip_eq_or l with heq | heq
  · rw [← heq] at hc
    rcases bodyPads_chars _ hb c hc with h1 | h1
    · exact Or.inl h1
    · exact Or.inr (Or.inl h1)
  · rw [heq] at hc
    rcases List.mem_append.mp hc with h1 | h1
    · rcases bodyPads_chars _ hb c h1 with h2 | h2
      · exact Or.inl h2
      · exact Or.inr (Or.inl h2)
    · have : c = '\n' := by simpa using h1
      exact Or.inr (Or.inr this)

/-- A character list without a colon splits as no scheme at all. -/
theorem splitOnColon_eq_none : ∀ l : List Char, ':' ∉ l → splitOnColon l = none
  | [], _ => rfl
  | c :: rest, h => by
      have hc : ¬(c = ':') := fun hh => h (hh ▸ List.mem_cons_self c rest)
      have hcb : (c == ':') = false := by simpa using hc
      have hr := splitOnColon_eq_none rest (fun hm => h (List.mem_cons_of_mem _ hm))
      simp [splitOnColon, hcb, hr]

/-- A string without a colon is not a URL. -/
theorem is_url_eq_false_of_no_colon (s : String) (h : ':' ∉ s.data) : is_url s = false := by
  simp [is_url, splitOnColon_eq_none s.data h]

/-- The first candidate of the loop that exists and can be read (the scan
aborts at an existing directory, which raises in the source). -/
def first_success (fs : FS) : List String → Option String
  | [] => none
  | p :: rest =>
      if fs.pathExists p then
        if fs.isDir p then none
        else if fs.readable p then some p
        else first_success fs rest
      else first_success fs rest

/-- The candidate loop succeeds exactly on the first existing readable
candidate, whose content it returns base64-encoded. -/
theorem try_paths_ok_iff (fs : FS) :
    ∀ (cands : List String) (path : String) (root : Option String) (s : String),
      try_paths fs cands path root = Except.ok s ↔
        ∃ p, first_success fs cands = some p ∧ encode_image_to_base64 (fs.content p) = s
  | [], path, root, s => by simp [try_paths, first_success]
  | p :: rest, path, root, s => by
      by_cases h1 : fs.pathExists p = true
      · by_cases h2 : fs.isDir p = true
        · simp [try_paths, first_success, h1, h2]
        · by_cases h3 : fs.readable p = true
          · simp [try_paths, first_success, h1, h2, h3]
          · simpa [try_paths, first_success, h1, h2, h3] using
              try_paths_ok_iff fs rest path root s
      · simpa [try_paths, first_success, h1] using try_paths_ok_iff fs rest path root s

/-- The candidate loop never raises a `PermissionError`. -/
theorem try_paths_ne_perm (fs : FS) :
    ∀ (cands : List String) (path : String) (root : Option String) (m : String),
      try_paths fs cands path root ≠ Except.error (PathError.permissionError m)
  | [], path, root, m => by simp [try_paths]
  | p :: rest, path, root, m => by
      by_cases h1 : fs.pathExists p = true
      · by_cases h2 : fs.isDir p = true
        · simp [try_paths, h1, h2]
        · by_cases h3 : fs.readable p = true
          · simp [try_paths, h1, h2, h3]
          · simpa [try_paths, h1, h2, h3] using try_paths_ne_perm fs rest path root m
      · simpa [try_paths, h1] using try_paths_ne_perm fs rest path root m

/-! ## Claims -/

/-- C1: every string passing the base64 validity test (alphabet plus at
most two trailing padding characters, length at least 4, decodable) that
does not begin with `data:image` is classified as Base64 — never RemoteUrl
or FilesystemPath — and `process_image_input` returns it unchanged, with
the derived MIME type defaulting to `image/jpeg`. -/
theorem c1_base64_passthrough (fs : FS) (http : Http) (root : Option String) (s : String)
    (hb : is_base64 s = true) (hd : strStartsWith s "data:image" = false) :
    classify s = ImageSourceKind.base64 ∧
    process_image_input fs http s root = Except.ok s ∧
    derive_mime_type fs s root = "image/jpeg" := by
  have hpay : data_url_payload s = none := by simp [data_url_payload, hd]
  have hcand : b64_candidate s = s.data := by simp [b64_candidate, hpay]
  have hmatch : matchesB64Regex s.data = true := by
    have h' := hb
    simp only [is_base64, hcand, Bool.and_eq_true] at h'
    exact h'.1.1
  have hnc : ':' ∉ s.data := by
    intro hmem
    rcases matchesB64Regex_chars s.data hmatch ':' hmem with h | h | h
    · exact absurd h (by decide)
    · exact absurd h (by decide)
    · exact absurd h (by decide)
  have hurl : is_url s = false := is_url_eq_false_of_no_colon s hnc
  refine ⟨?_, ?_, ?_⟩
  · simp [classify, hpay, hb]
  · simp [process_image_input, hpay, hb]
  · simp [derive_mime_type, hd, hurl, hb]

/-- Witness for C1 at the spec's own example string. -/
theorem c1_witness :
    is_base64 "SGVsbG8gV29ybGQ=" = true ∧
    strStartsWith "SGVsbG8gV29ybGQ=" "data:image" = false ∧
    (classify "SGVsbG8gV29ybGQ=" = ImageSourceKind.base64 ∧
      process_image_input fsEmpty httpDown "SGVsbG8gV29ybGQ=" none = Except.ok "SGVsbG8gV29ybGQ=" ∧
      derive_mime_type fsEmpty "SGVsbG8gV29ybGQ=" none = "image/jpeg") :=
  ⟨by decide, by decide,
    c1_base64_passthrough fsEmpty httpDown none "SGVsbG8gV29ybGQ=" (by decide) (by decide)⟩

/-- C3: an absolute path is probed alone (the project root is never
joined, so the result does not depend on it); for a relative path the
literal path comes first and the root-joined candidate is added exactly
when the root is supplied (truthy) and is an existing directory; the loop
succeeds exactly on the first candidate that exists and reads, returning
its bytes base64-encoded. -/
theorem c3_path_resolution (fs : FS) (path : String) (root : Option String) :
    (isAbsolute (pathOfString path) = true →
      path_candidates fs path root = [pathOfString path] ∧
      load_image_from_path fs path root = load_image_from_path fs path none) ∧
    (isAbsolute (pathOfString path) = false →
      path_candidates fs path none = [pathOfString path] ∧
      (∀ r : String, r ≠ "" → fs.pathExists r = true → fs.isDir r = true →
        path_candidates fs path (some r) = [pathOfString path, joinPath r path]) ∧
      (∀ r : String, ¬(r ≠ "" ∧ fs.pathExists r = true ∧ fs.isDir r = true) →
        path_candidates fs path (some r) = [pathOfString path])) ∧
    (∀ s, load_image_from_path fs path root = Except.ok s ↔
      ∃ p, first_success fs (path_candidates fs path root) = some p ∧
        encode_image_to_base64 (fs.content p) = s) := by
  refine ⟨?_, ?_, ?_⟩
  · intro habs
    constructor
    · simp [path_candidates, habs]
    · simp [load_image_from_path, habs]
  · intro habs
    refine ⟨by simp [path_candidates, habs], ?_, ?_⟩
    · intro r h1 h2 h3
      have hb : (r != "") = true := by simpa using h1
      simp [path_candidates, habs, hb, h2, h3]
    · intro r hneg
      cases hb : ((r != "") && fs.pathExists r && fs.isDir r) with
      | false => simp [path_candidates, habs, hb]
      | true =>
          have h' : (¬r = "" ∧ fs.pathExists r = true) ∧ fs.isDir r = true := by
            simpa [Bool.and_eq_true, bne_iff_ne] using hb
          exact absurd ⟨h'.1.1, h'.1.2, h'.2⟩ hneg
  · intro s
    by_cases habs : isAbsolute (pathOfString path) = true
    · by_cases h1 : fs.pathExists (pathOfString path) = true
      · by_cases h2 : fs.isDir (pathOfString path) = true
        · simp [load_image_from_path, path_candidates, habs, h1, h2, first_success]
        · by_cases h3 : fs.readable (pathOfString path) = true
          · simp [load_image_from_path, path_candidates, habs, h1, h2, h3, first_success]
          · simp [load_image_from_path, path_candidates, habs, h1, h2, h3, first_success]
      · simp [load_image_from_path, path_candidates, habs, h1, first_success]
    · have habs' : isAbsolute (pathOfString path) = false := by simpa using habs
      have hload : load_image_from_path fs path root =
          try_paths fs (path_candidates fs path root) path root := by
        simp [load_image_from_path, habs']
      rw [hload]
      exact try_paths_ok_iff fs _ path root s

/-- Witness for C3: with an absolute path, the candidate list is that path
alone and the project root does not affect the result. -/
theorem c3_witness :
    path_candidates fsPng "/a/b.jpg" (some "/r") = ["/a/b.jpg"] ∧
    load_image_from_path fsPng "/a/b.jpg" (some "/r") =
      load_image_from_path fsPng "/a/b.jpg" none :=
  (c3_path_resolution fsPng "/a/b.jpg" (some "/r")).1 (by decide)

/-- C6 counterexample: a relative path whose last candidate
`/r/img.jpg` exists but cannot be read.  All candidates are exhausted and
the permission failure is on the last candidate, yet the error reported is
the `FileNotFoundError` of the exhausted loop, not a permission
(AccessDenied) error. -/
theorem c6_counterexample :
    fsPerm.pathExists "/r/img.jpg" = true ∧
    fsPerm.readable "/r/img.jpg" = false ∧
    path_candidates fsPerm "img.jpg" (some "/r") = ["img.jpg", "/r/img.jpg"] ∧
    load_image_from_path fsPerm "img.jpg" (some "/r") =
      Except.error (PathError.fileNotFound
        "Image file not found: img.jpg (tried directly and under project root: /r)") :=
  ⟨rfl, rfl, rfl, rfl⟩

/-- C6 (amended): a permission failure on a candidate advances the loop to
the next candidate; for a relative path the exhausted loop reports
NotFound — never a permission error, even when the last candidate failed
with one; a permission (AccessDenied) error is reported only in the
absolute-path case, whose single candidate exists but cannot be read. -/
theorem c6_permission_no_short_circuit (fs : FS) (path p : String) (rest : List String)
    (root : Option String) :
    (fs.pathExists p = true → fs.isDir p = false → fs.readable p = false →
      try_paths fs (p :: rest) path root = try_paths fs rest path root) ∧
    (isAbsolute (pathOfString path) = false →
      ∀ m, load_image_from_path fs path root ≠ Except.error (PathError.permissionError m)) ∧
    (isAbsolute (pathOfString path) = true → fs.pathExists (pathOfString path) = true →
      fs.isDir (pathOfString path) = false → fs.readable (pathOfString path) = false →
      load_image_from_path fs path root = Except.error (PathError.permissionError
        ("Permission denied when trying to read image file at: " ++ path))) := by
  refine ⟨?_, ?_, ?_⟩
  · intro h1 h2 h3
    simp [try_paths, h1, h2, h3]
  · intro habs m
    have hload : load_image_from_path fs path root =
        try_paths fs (path_candidates fs path root) path root := by
      simp [load_image_from_path, habs]
    rw [hload]
    exact try_paths_ne_perm fs _ path root m
  · intro habs h1 h2 h3
    simp [load_image_from_path, habs, h1, h2, h3]

/-- Witness for C6 (amended): the unreadable existing candidate is skipped,
leaving the loop to continue with the remaining candidates. -/
theorem c6_witness :
    try_paths fsPerm ["/r/img.jpg"] "img.jpg" (some "/r") =
      try_paths fsPerm [] "img.jpg" (some "/r") :=
  (c6_permission_no_short_circuit fsPerm "img.jpg" "/r/img.jpg" [] (some "/r")).1 rfl rfl rfl

/-- The empty list is a boolean prefix of every list. -/
theorem nil_isPrefixOf {α : Type} [BEq α] (t : List α) : List.isPrefixOf [] t = true := by
  cases t <;> rfl

/-- Every list is a boolean prefix of itself followed by anything. -/
theorem isPrefixOf_append_self {α : Type} [BEq α] [LawfulBEq α] :
    ∀ (p t : List α), p.isPrefixOf (p ++ t) = true
  | [], t => nil_isPrefixOf t
  | a :: as, t => by simp [List.isPrefixOf, isPrefixOf_append_self as t]

/-- Byte sniffing answers `image/png` on a PNG-signature body. -/
theorem sniff_bytes_png (bytes : List Nat) (h : png_signature.isPrefixOf bytes = true) :
    sniff_bytes (some bytes) = "image/png" := by
  obtain ⟨t, ht⟩ := isPrefixOf_exists png_signature bytes h
  subst ht
  have h1 : (png_signature ++ t).isEmpty = false := rfl
  simp [sniff_bytes, h1, isPrefixOf_append_self]

/-- Byte sniffing answers `image/jpeg` on a JPEG-signature body. -/
theorem sniff_bytes_jpeg (bytes : List Nat) (h : jpeg_signature.isPrefixOf bytes = true) :
    sniff_bytes (some bytes) = "image/jpeg" := by
  obtain ⟨t, ht⟩ := isPrefixOf_exists jpeg_signature bytes h
  subst ht
  have h1 : (jpeg_signature ++ t).isEmpty = false := rfl
  have h2 : png_signature.isPrefixOf (jpeg_signature ++ t) = false := rfl
  simp [sniff_bytes, h1, h2, isPrefixOf_append_self]

/-- C2 counterexample: for the spec's own scenario — a `.jpg`-named file
whose content carries the PNG signature — the sniffer and the pipeline
both answer `image/jpeg`, because the extension guess takes precedence
over the byte signature; the claim demands `image/png`. -/
theorem c2_counterexample :
    png_signature.isPrefixOf png_signature = true ∧
    get_mime_type "/a/b.jpg" (some png_signature) = "image/jpeg" ∧
    derive_mime_type fsPng "/a/b.jpg" none = "image/jpeg" ∧
    ("image/jpeg" : String) ≠ "image/png" :=
  ⟨by decide, rfl, rfl, by decide⟩

/-- C2 (amended): byte-signature sniffing governs only when the
extension-based guess yields no `image/` type; in that case PNG-signature
bytes give `image/png` and JPEG-signature bytes give `image/jpeg`; when
the extension guess yields an `image/` type, that guess is returned
regardless of the bytes. -/
theorem c2_extension_precedence (name : String) (bytes : List Nat) :
    (guess_image name = none →
      (png_signature.isPrefixOf bytes = true → get_mime_type name (some bytes) = "image/png") ∧
      (jpeg_signature.isPrefixOf bytes = true → get_mime_type name (some bytes) = "image/jpeg")) ∧
    (∀ m, guess_image name = some m → get_mime_type name (some bytes) = m) := by
  cases hg : guess_type name with
  | none =>
      refine ⟨fun _ => ⟨?_, ?_⟩, fun m hm => ?_⟩
      · intro h
        simpa [get_mime_type, hg] using sniff_bytes_png bytes h
      · intro h
        simpa [get_mime_type, hg] using sniff_bytes_jpeg bytes h
      · simp [guess_image, hg] at hm
  | some g =>
      by_cases hs : strStartsWith g "image/" = true
      · refine ⟨fun hnone => ?_, fun m hm => ?_⟩
        · simp [guess_image, hg, hs] at hnone
        · have hgm : g = m := by simpa [guess_image, hg, hs] using hm
          subst hgm
          simp [get_mime_type, hg, hs]
      · have hs' : strStartsWith g "image/" = false := by simpa using hs
        refine ⟨fun _ => ⟨?_, ?_⟩, fun m hm => ?_⟩
        · intro h
          simpa [get_mime_type, hg, hs'] using sniff_bytes_png bytes h
        · intro h
          simpa [get_mime_type, hg, hs'] using sniff_bytes_jpeg bytes h
        · simp [guess_image, hg, hs'] at hm

/-- Witness for C2 (amended): an extension-less name falls back to byte
sniffing, which recognizes the PNG signature. -/
theorem c2_witness :
    guess_image "photo" = none ∧
    get_mime_type "photo" (some png_signature) = "image/png" :=
  ⟨by decide,
    ((c2_extension_precedence "photo" png_signature).1 (by decide)).1 (by decide)⟩

/-- C4 counterexample: on a data URL whose base64 payload contains a
newline, the regex group `(.*)` stops at the newline, so the returned
payload is `AB` while the substring after `base64,` is the full
`AB\nCD`. -/
theorem c4_counterexample :
    process_image_input fsEmpty httpDown "data:image/png;base64,AB\nCD" none = Except.ok "AB" ∧
    dropAfterFirst marker_chars "data:image/png;base64,AB\nCD".data = some "AB\nCD".data ∧
    ("AB" : String) ≠ "AB\nCD" :=
  ⟨rfl, by decide, by decide⟩

/-- C4 (amended): for a string beginning with `data:image` and containing
`base64,`, classification yields DataUrl and the returned payload is the
run of non-newline characters directly after the first `base64,`; the
derived MIME type is the one `extract_mime_type_from_data_url` yields —
`image/` plus the run of non-semicolon characters after the first
`data:image/`, defaulting to `image/jpeg` when there is none. -/
theorem c4_data_url_extraction (fs : FS) (http : Http) (root : Option String) (s : String)
    (rest : List Char) (hd : strStartsWith s "data:image" = true)
    (hm : dropAfterFirst marker_chars s.data = some rest) :
    classify s = ImageSourceKind.dataUrl ∧
    process_image_input fs http s root =
      Except.ok (String.mk (rest.takeWhile (fun c => c != '\n'))) ∧
    derive_mime_type fs s root = extract_mime_type_from_data_url s := by
  have hpay : data_url_payload s = some (String.mk (rest.takeWhile (fun c => c != '\n'))) := by
    simp [data_url_payload, hd, hm]
  refine ⟨?_, ?_, ?_⟩
  · simp [classify, hpay]
  · simp [process_image_input, hpay]
  · simp [derive_mime_type, hd]

/-- Witness for C4 (amended) on a newline-free data URL. -/
theorem c4_witness :
    classify "data:image/png;base64,QUJD" = ImageSourceKind.dataUrl ∧
    process_image_input fsEmpty httpDown "data:image/png;base64,QUJD" none = Except.ok "QUJD" ∧
    derive_mime_type fsEmpty "data:image/png;base64,QUJD" none =
      extract_mime_type_from_data_url "data:image/png;base64,QUJD" :=
  c4_data_url_extraction fsEmpty httpDown none "data:image/png;base64,QUJD" "QUJD".data
    (by decide) (by decide)

/-- C5 counterexample: a 2xx response that is not exactly 200 — status
201 — is rejected by the loader even though the claim promises success on
any 2xx status. -/
theorem c5_counterexample :
    (200 ≤ 201 ∧ 201 < 300) ∧
    load_image_from_url http201 "https://e.com/a" =
      Except.error "Failed to download image from URL: https://e.com/a, error: HTTP 201" :=
  ⟨by decide, rfl⟩

/-- C5 (amended): the URL loader fails exactly when the HTTP status is not
200 or a transport-level error occurs; every failure message carries the
URL, and a status failure also carries the status code; on status 200 the
response body is base64-encoded and returned. -/
theorem c5_url_loader (http : Http) (url : String) :
    (∀ r : HttpResponse, http.get url = Except.ok r →
      (r.status = 200 → load_image_from_url http url = Except.ok (encode_image_to_base64 r.body)) ∧
      (r.status ≠ 200 → ∃ m, load_image_from_url http url = Except.error m ∧
        containsStr url m ∧ containsStr (toString r.status) m)) ∧
    (∀ e, http.get url = Except.error e → ∃ m, load_image_from_url http url = Except.error m ∧
      containsStr url m) := by
  constructor
  · intro r hr
    constructor
    · intro h200
      simp [load_image_from_url, hr, h200]
    · intro hne
      by_cases h4 : 400 ≤ r.status
      · refine ⟨"Failed to download image from URL: " ++ url ++ ", error: " ++
          http_error_msg r.status url, ?_, ?_, ?_⟩
        · simp [load_image_from_url, hr, h4]
        · exact ⟨"Failed to download image from URL: ".data,
            (", error: " ++ http_error_msg r.status url).data,
            by simp [String.data_append, List.append_assoc]⟩
        · exact ⟨("Failed to download image from URL: " ++ url ++ ", error: ").data,
            (" Error for url: " ++ url).data,
            by simp [http_error_msg, String.data_append, List.append_assoc]⟩
      · refine ⟨"Failed to download image from URL: " ++ url ++ ", error: HTTP " ++
          toString r.status, ?_, ?_, ?_⟩
        · simp [load_image_from_url, hr, h4, hne]
        · exact ⟨"Failed to download image from URL: ".data,
            (", error: HTTP " ++ toString r.status).data,
            by simp [String.data_append, List.append_assoc]⟩
        · exact ⟨("Failed to download image from URL: " ++ url ++ ", error: HTTP ").data,
            [], by simp [String.data_append, List.append_assoc]⟩
  · intro e he
    refine ⟨"Failed to download image from URL: " ++ url ++ ", error: " ++ e, ?_, ?_⟩
    · simp [load_image_from_url, he]
    · exact ⟨"Failed to download image from URL: ".data, (", error: " ++ e).data,
        by simp [String.data_append, List.append_assoc]⟩

/-- Witness for C5 (amended): a status-200 response succeeds with the
base64-encoded body. -/
theorem c5_witness :
    load_image_from_url httpPng "https://example.com/pic" =
      Except.ok (encode_image_to_base64 png_signature) :=
  ((c5_url_loader httpPng "https://example.com/pic").1
    { status := 200, contentType := some "image/png", body := png_signature } rfl).1 rfl

/-- C7: the claim matches the `content_type` value the loader computes on
lines 170-173 — here `image/png` straight from the header — but the
function drops that value (its docstring promises a `(base64, mime)`
tuple; only the base64 string is returned), and `image_analysis` instead
derives the MIME type of a URL input from the URL's extension alone,
yielding the `image/jpeg` default for an extension-less URL even though
the header and the body both say PNG.  The pipeline payload itself is the
encoded body. -/
theorem c7_code_bug :
    classify "https://example.com/pic" = ImageSourceKind.remoteUrl ∧
    load_image_from_url_content_type httpPng "https://example.com/pic" = some "image/png" ∧
    process_image_input fsEmpty httpPng "https://example.com/pic" none =
      Except.ok (encode_image_to_base64 png_signature) ∧
    derive_mime_type fsEmpty "https://example.com/pic" none = "image/jpeg" ∧
    ("image/jpeg" : String) ≠ "image/png" :=
  ⟨rfl, rfl, rfl, rfl, by decide⟩

/-- Splitting `data:image...` at its first colon yields the scheme text
`data` and the remainder. -/
theorem splitOnColon_data_image (t : List Char) :
    splitOnColon ("data:image".data ++ t) = some ("data".data, "image".data ++ t) := by
  show splitOnColon ('d' :: 'a' :: 't' :: 'a' :: ':' :: ("image".data ++ t)) =
    some (['d', 'a', 't', 'a'], "image".data ++ t)
  simp [splitOnColon,
    (show ('d' == ':') = false by decide),
    (show ('a' == ':') = false by decide),
    (show ('t' == ':') = false by decide)]

/-- A remainder that does not begin with a slash has no netloc. -/
theorem netlocOf_not_slash (c : Char) (rest : List Char) (h : (c == '/') = false) :
    netlocOf (c :: rest) = [] := by
  simp [netlocOf, h]

/-- C8 counterexample: the string `data:image;x` begins with `data:image`
and has no `base64,` marker; instead of a malformed-input failure from a
data-URL loader, processing falls through to the filesystem branch and
(on a filesystem without such a file) fails with the not-found
`ValueError` of the path loader. -/
theorem c8_counterexample :
    strStartsWith "data:image;x" "data:image" = true ∧
    dropAfterFirst marker_chars "data:image;x".data = none ∧
    process_image_input fsEmpty httpDown "data:image;x" none =
      Except.error (ProcError.valueError
        "Invalid image input: Image file not found: data:image;x (relative path used without specifying project_root). Image must be a base64-encoded string, a URL, or a valid file path.") :=
  ⟨by decide, by decide, rfl⟩

/-- C8 (amended): a string beginning with `data:image` but lacking the
`base64,` marker is not answered by the data-URL branch: it is neither
valid base64 (it contains a colon) nor a URL (no `//` after the scheme),
so it is classified as a filesystem path and handled — and fails — as
one, with the path loader's errors wrapped into `ValueError`s. -/
theorem c8_data_url_fallthrough (fs : FS) (http : Http) (root : Option String) (s : String)
    (hd : strStartsWith s "data:image" = true)
    (hm : dropAfterFirst marker_chars s.data = none) :
    classify s = ImageSourceKind.filesystemPath ∧
    process_image_input fs http s root = wrap_path_result (load_image_from_path fs s root) := by
  obtain ⟨t, ht⟩ := isPrefixOf_exists "data:image".data s.data hd
  have hpay : data_url_payload s = none := by
    simp [data_url_payload, hd, hm]
  have hcolon : ':' ∈ s.data := by
    rw [ht]
    exact List.mem_append.mpr (Or.inl (by decide))
  have hmatch : matchesB64Regex s.data = false := by
    cases hmm : matchesB64Regex s.data with
    | false => rfl
    | true =>
        rcases matchesB64Regex_chars s.data hmm ':' hcolon with h | h | h
        · exact absurd h (by decide)
        · exact absurd h (by decide)
        · exact absurd h (by decide)
  have hb64 : is_base64 s = false := by
    simp [is_base64, b64_candidate, hpay, hmatch]
  have hurl : is_url s = false := by
    have hnet : netlocOf ('i' :: 'm' :: 'a' :: 'g' :: 'e' :: t) = [] :=
      netlocOf_not_slash 'i' _ (by decide)
    rw [is_url, ht, splitOnColon_data_image]
    simp [hnet]
  refine ⟨?_, ?_⟩
  · simp [classify, hpay, hb64, hurl]
  · simp [process_image_input, hpay, hb64, hurl]

/-- Witness for C8 (amended) at the concrete marker-less data reference. -/
theorem c8_witness :
    classify "data:image;x" = ImageSourceKind.filesystemPath ∧
    process_image_input fsEmpty httpDown "data:image;x" none =
      wrap_path_result (load_image_from_path fsEmpty "data:image;x" none) :=
  c8_data_url_fallthrough fsEmpty httpDown none "data:image;x" (by decide) (by decide)

/-- C9 counterexample: the empty string is classified as a filesystem
path, but `Path("")` normalizes to `.`, which exists as a directory, so
the load fails with an is-a-directory read error wrapped into the
Error-processing-image `ValueError` — not with a not-found error. -/
theorem c9_counterexample :
    classify "" = ImageSourceKind.filesystemPath ∧
    load_image_from_path fsDot "" none = Except.error (PathError.otherError
      "Error reading image file at: ., error: [Errno 21] Is a directory: \x27.\x27") ∧
    process_image_input fsDot httpDown "" none = Except.error (ProcError.valueError
      "Error processing image: Error reading image file at: ., error: [Errno 21] Is a directory: \x27.\x27") :=
  ⟨rfl, rfl, rfl⟩

/-- C9 (amended): the empty string is classified as FilesystemPath and
fails at load time; since `Path("")` is `.`, on any filesystem where the
current directory exists (as a directory) the failure is an
is-a-directory read error wrapped as `Error processing image: ...`, and a
not-found error arises only when `.` itself does not exist. -/
theorem c9_empty_string (fs : FS) (http : Http) :
    classify "" = ImageSourceKind.filesystemPath ∧
    pathOfString "" = "." ∧
    (fs.pathExists "." = true → fs.isDir "." = true →
      process_image_input fs http "" none = Except.error (ProcError.valueError
        "Error processing image: Error reading image file at: ., error: [Errno 21] Is a directory: \x27.\x27")) ∧
    (fs.pathExists "." = false →
      process_image_input fs http "" none = Except.error (ProcError.valueError
        "Invalid image input: Image file not found:  (relative path used without specifying project_root). Image must be a base64-encoded string, a URL, or a valid file path.")) := by
  have hpay : data_url_payload "" = none := by decide
  have hb : is_base64 "" = false := by decide
  have hu : is_url "" = false := by decide
  have e1 : pathOfString "" = "." := rfl
  have e2 : isAbsolute "." = false := by decide
  refine ⟨rfl, rfl, ?_, ?_⟩
  · intro hex hdir
    have hload : load_image_from_path fs "" none =
        Except.error (PathError.otherError
          "Error reading image file at: ., error: [Errno 21] Is a directory: \x27.\x27") := by
      simp only [load_image_from_path, path_candidates, e1, e2, Bool.false_eq_true, if_false]
      simp [try_paths, hex, hdir]
      rfl
    simp [process_image_input, hpay, hb, hu, hload, wrap_path_result]
  · intro hex
    have hload : load_image_from_path fs "" none =
        Except.error (PathError.fileNotFound
          "Image file not found:  (relative path used without specifying project_root)") := by
      simp only [load_image_from_path, path_candidates, e1, e2, Bool.false_eq_true, if_false]
      simp [try_paths, hex]
      rfl
    simp [process_image_input, hpay, hb, hu, hload, wrap_path_result, invalid_input_msg]

/-- Witness for C9 (amended) on the filesystem whose only entry is `.`. -/
theorem c9_witness :
    classify "" = ImageSourceKind.filesystemPath ∧
    process_image_input fsDot httpDown "" none = Except.error (ProcError.valueError
      "Error processing image: Error reading image file at: ., error: [Errno 21] Is a directory: \x27.\x27") :=
  ⟨(c9_empty_string fsDot httpDown).1, (c9_empty_string fsDot httpDown).2.2.1 rfl rfl⟩

/-- C10: the max_tokens `ValueError` (whose message still says "between
100 and 4000") is raised exactly when `max_tokens < 100` or
`max_tokens > 8000`; every value in `[100, 8000]` — including values above
4000 — passes validation, and with the remaining parameters at their
defaults the call proceeds to image processing. -/
theorem c10_max_tokens (fs : FS) (http : Http) (image : String) (root : Option String)
    (mt : Int) (temperature : ℚ) (topP presencePenalty frequencyPenalty : Option ℚ) :
    (image_analysis_validate mt temperature topP presencePenalty frequencyPenalty =
        some "max_tokens must be between 100 and 4000" ↔ (mt < 100 ∨ mt > 8000)) ∧
    (100 ≤ mt → mt ≤ 8000 →
      image_analysis_model fs http image mt (7/10) none none none root =
        match process_image_input fs http image root with
        | .ok payload => .ok (payload, derive_mime_type fs image root)
        | .error e => .error (process_failure_msg (procErrorMsg e))) := by
  constructor
  · constructor
    · intro h
      by_contra hno
      unfold image_analysis_validate at h
      rw [if_neg hno] at h
      split_ifs at h <;> exact absurd h (by decide)
    · intro h
      unfold image_analysis_validate
      rw [if_pos h]
  · intro h1 h2
    have hno : ¬(mt < 100 ∨ mt > 8000) := by
      push_neg
      exact ⟨h1, h2⟩
    have htemp : ¬((7 : ℚ)/10 < 0 ∨ (7 : ℚ)/10 > 1) := by norm_num
    have hv : image_analysis_validate mt (7/10) none none none = none := by
      unfold image_analysis_validate
      rw [if_neg hno, if_neg htemp]
      rfl
    unfold image_analysis_model
    rw [hv]

/-- Witness for C10: max_tokens 5000 — above the documented 4000 — is
accepted and the pipeline runs on a bare-base64 input. -/
theorem c10_witness :
    image_analysis_model fsEmpty httpDown "SGVsbG8=" 5000 (7/10) none none none none =
      Except.ok ("SGVsbG8=", "image/jpeg") := by
  have h := (c10_max_tokens fsEmpty httpDown "SGVsbG8=" none 5000 (7/10)
    none none none).2 (by norm_num) (by norm_num)
  rw [h]
  rfl

end OpenVision

/-! Sanity checks (removed content: scratch examples live as theorems proved
by evaluation; they also exercise the kernel reduction used later). -/

example : OpenVision.is_base64 "SGVsbG8gV29ybGQ=" = true := by decide

example : OpenVision.is_base64 "abc" = false := by decide

example : OpenVision.is_base64 "aaaa=" = true := by decide

example : OpenVision.is_base64 "abc==" = true := by decide

example : OpenVision.is_base64 "aaaa==" = true := by decide

example : OpenVision.is_base64 "abcd\n" = true := by decide

example : OpenVision.is_base64 "ab=" = false := by decide

example : OpenVision.is_base64 "abcde" = false := by decide

example : OpenVision.is_base64 "abcd\n\n" = false := by decide

example : OpenVision.is_base64 "a===" = false := by decide

example : OpenVision.is_url "https://example.com/a.png" = true := by decide

example : OpenVision.is_url "example.com" = false := by decide

example : OpenVision.guess_type "/a/b.jpg" = some "image/jpeg" := by decide

example : OpenVision.guess_type "https://example.com/pic" = none := by decide

example : OpenVision.get_mime_type "/a/b.jpg" (some OpenVision.png_signature) = "image/jpeg" := by decide

example : OpenVision.extract_mime_type_from_data_url "data:image/png;base64,AA" = "image/png" := by decide

example : OpenVision.data_url_payload "data:image/png;base64,AB\nCD" = some "AB" := by decide

example : OpenVision.encode_image_to_base64 [72, 101, 108, 108, 111] = "SGVsbG8=" := by decide

example :
    OpenVision.process_image_input OpenVision.fsEmpty OpenVision.httpDown "data:image;x" none =
      Except.error (OpenVision.ProcError.valueError
        "Invalid image input: Image file not found: data:image;x (relative path used without specifying project_root). Image must be a base64-encoded string, a URL, or a valid file path.") := by
  rfl

example :
    OpenVision.process_image_input OpenVision.fsDot OpenVision.httpDown "" none =
      Except.error (OpenVision.ProcError.valueError
        "Error processing image: Error reading image file at: ., error: [Errno 21] Is a directory: \x27.\x27") := by
  rfl

example :
    OpenVision.load_image_from_path OpenVision.fsPerm "img.jpg" (some "/r") =
      Except.error (OpenVision.PathError.fileNotFound
        "Image file not found: img.jpg (tried directly and under project root: /r)") := by
  rfl

example :
    OpenVision.load_image_from_url OpenVision.http201 "https://e.com/a" =
      Except.error "Failed to download image from URL: https://e.com/a, error: HTTP 201" := by
  rfl

example :
    OpenVision.derive_mime_type OpenVision.fsPng "/a/b.jpg" none = "image/jpeg" := by
  rfl

example :
    OpenVision.load_image_from_url_content_type OpenVision.httpPng "https://example.com/pic" =
      some "image/png" := by
  rfl

example :
    OpenVision.derive_mime_type OpenVision.fsEmpty "https://example.com/pic" none = "image/jpeg" := by
  rfl

example :
    OpenVision.classify "" = OpenVision.ImageSourceKind.filesystemPath := by rfl

example :
    OpenVision.classify "https://example.com/pic" = OpenVision.ImageSourceKind.remoteUrl := by rfl

example :
    OpenVision.process_image_input OpenVision.fsEmpty OpenVision.httpDown
      "data:image/png;base64,AB\nCD" none = Except.ok "AB" := by rfl

example :
    OpenVision.image_analysis_model OpenVision.fsEmpty OpenVision.httpDown "SGVsbG8=" 5000
      (7/10) none none none none = Except.ok ("SGVsbG8=", "image/jpeg") := by
  have h : OpenVision.image_analysis_validate 5000 (7/10) none none none = none := by
    unfold OpenVision.image_analysis_validate
    norm_num
  unfold OpenVision.image_analysis_model
  rw [h]
  rfl
